import Mathlib

/-!
# Verification of the untrusted-code sandbox (QuickJS-in-Lambda) against its specification

The repository ships a TypeScript SDK (`packages/sdk`), AWS CDK infrastructure, and a
Rust Lambda embedding QuickJS.  The SDK and infrastructure sources are present; the Rust
sandbox core (Network Mediator, Resource Governor, Result Protocol) is not part of the
snapshot, so those components are modelled directly from the specification's contracts
(§4.2–§4.5 of the design document) — each such definition carries a doc comment starting
`Modelled from the spec:`.  The SDK entry point `runUntrustedCode` and the helper
`getStructuredError` are embedded from the TypeScript source.
-/

namespace Sandbox

/-- A JSON-like structured value, the shape of data crossing the sandbox boundary
(user-code return values, `input`/`options` objects, fetch bodies). -/
inductive JValue where
  | null : JValue
  | bool (b : Bool) : JValue
  | num (n : Int) : JValue
  | str (s : String) : JValue
  | arr (elems : List JValue) : JValue
  | obj (fields : List (String × JValue)) : JValue

/-- First value bound to `key` in an object's field list. -/
def lookupField : List (String × JValue) → String → Option JValue
  | [], _ => none
  | (k, v) :: rest, key => if k == key then some v else lookupField rest key

/-- The string value of field `key` of `v`, when `v` is an object carrying that key
with a string value; `none` otherwise.  This is how the Result Protocol reads the
cooperative `skip_reason` / `error_reason` keys off a returned value. -/
def fieldString (v : JValue) (key : String) : Option String :=
  match v with
  | .obj fields =>
    match lookupField fields key with
    | some (.str s) => some s
    | _ => none
  | _ => none

/-! ## Network Mediator (spec §4.3) -/

/-- A resolved network address of an outbound call's target host. -/
inductive IPAddr where
  | v4 (a b c d : Nat) : IPAddr
  | v6Loopback : IPAddr
  | v6Other (repr : String) : IPAddr

/-- Modelled from the spec: the private/loopback/link-local check of Network Mediator
step 3 (the Rust mediator is not in the snapshot).  Covers loopback `127.0.0.0/8` and
`::1`, RFC1918 `10.0.0.0/8`, `172.16.0.0/12`, `192.168.0.0/16`, and link-local
`169.254.0.0/16`. -/
def isPrivateAddr : IPAddr → Bool
  | .v4 a b _ _ =>
    a == 127 || a == 10 || (a == 172 && decide (16 ≤ b) && decide (b ≤ 31)) ||
    (a == 192 && b == 168) || (a == 169 && b == 254)
  | .v6Loopback => true
  | .v6Other _ => false

/-- Modelled from the spec: a host is blocked when its literal name is `localhost` or
its resolved address lies in a private/loopback/link-local range (spec §4.3 step 3,
using the resolved address to prevent DNS-rebinding bypass). -/
def isBlockedHost (host : String) (addr : IPAddr) : Bool :=
  host == "localhost" || isPrivateAddr addr

/-- `strEndsWith s t` holds when `t` is a suffix of `s` (computed on the character
lists so proofs can evaluate it). -/
def strEndsWith (s t : String) : Bool :=
  List.isSuffixOf t.data s.data

/-- Modelled from the spec: allowlist matching of Network Mediator step 4 — exact
match, or dot-boundary suffix match (proper subdomain) of an allowed entry. -/
def domainMatches (host entry : String) : Bool :=
  host == entry || strEndsWith host ("." ++ entry)

/-- One outbound call attempt as seen by the Network Mediator: the parsed URL parts
and the resolved address of the target host. -/
structure FetchRequest where
  scheme : String
  method : String
  host : String
  resolvedAddr : IPAddr

/-- The mediator's per-call verdict (the spec's ephemeral Fetch Decision). -/
inductive FetchDecision where
  | accept : FetchDecision
  | reject (reason : String) : FetchDecision

/-- Policy-rejection message when `allowedDomains` is empty (spec §4.3 step 1). -/
def EMPTY_ALLOWLIST_ERROR : String := "Network access denied: allowedDomains is empty"

/-- Policy-rejection message for a non-HTTP(S) scheme (spec §4.3 step 2). -/
def SCHEME_ERROR : String := "Only HTTP(S) URLs are allowed"

/-- Policy-rejection message for a non-GET method (spec §4.3 step 2). -/
def METHOD_ERROR : String := "Only GET requests are allowed"

/-- Policy-rejection message for a private/loopback/link-local target (spec §4.3 step 3). -/
def PRIVATE_ADDR_ERROR : String := "Access to private or local addresses is blocked"

/-- Modelled from the spec: the Network Mediator's decision procedure, spec §4.3
steps 1–4 in order (the Rust mediator is not in the snapshot).  Empty-allowlist,
scheme/method, and private-range checks run before allowlist matching; the
domain-not-allowed message matches the one exercised by the SDK tests. -/
def mediate (allowedDomains : List String) (req : FetchRequest) : FetchDecision :=
  if allowedDomains.isEmpty then .reject EMPTY_ALLOWLIST_ERROR
  else if !(req.scheme == "http" || req.scheme == "https") then .reject SCHEME_ERROR
  else if req.method != "GET" then .reject METHOD_ERROR
  else if isBlockedHost req.host req.resolvedAddr then .reject PRIVATE_ADDR_ERROR
  else if allowedDomains.any (domainMatches req.host) then .accept
  else .reject ("Domain not allowed: " ++ req.host)

/-! ## Fetch capability (spec §4.3 steps 5–6) -/

/-- What the network does with an accepted request: an HTTP response, a transport
failure, or expiry of the fixed 5-second per-request timeout. -/
inductive NetOutcome where
  | response (status : Nat) (body : String) : NetOutcome
  | netFailure (msg : String) : NetOutcome
  | timeout : NetOutcome

/-- Error message for an accepted request whose 5-second per-request timer expires. -/
def FETCH_TIMEOUT_ERROR : String := "Request timeout"

/-- The uniform response object handed back to caller code by the fetch capability:
`{ ok, status, text, json, error }`; `json = none` models JavaScript `null`. -/
structure FetchResponse where
  ok : Bool
  status : Nat
  text : String
  json : Option JValue
  error : Option String

/-- Modelled from the spec: the fetch capability installed into the interpreter
(spec §4.3 steps 5–6; the Rust implementation is not in the snapshot).  It always
returns the uniform shape rather than raising: a mediator rejection, a network
failure and a timeout all yield `ok := false` with `error` populated, and a received
HTTP response yields `ok` true exactly for status 200–299 with `json` the parsed
body (`parse`) or null when parsing fails. -/
def fetchCapability (parse : String → Option JValue) (allowedDomains : List String)
    (req : FetchRequest) (net : NetOutcome) : FetchResponse :=
  match mediate allowedDomains req with
  | .reject reason => { ok := false, status := 0, text := "", json := none, error := some reason }
  | .accept =>
    match net with
    | .response status body =>
      { ok := decide (200 ≤ status) && decide (status ≤ 299)
        status := status
        text := body
        json := parse body
        error := none }
    | .netFailure msg => { ok := false, status := 0, text := "", json := none, error := some msg }
    | .timeout => { ok := false, status := 0, text := "", json := none, error := some FETCH_TIMEOUT_ERROR }

/-- The results of all network calls attempted during one run, in order. -/
def runFetches (parse : String → Option JValue) (allowedDomains : List String)
    (calls : List (FetchRequest × NetOutcome)) : List FetchResponse :=
  calls.map fun c => fetchCapability parse allowedDomains c.1 c.2

/-! ## Request validation (spec §3, §6) -/

/-- Default wall-clock ceiling when `timeoutMs` is absent (5000 ms). -/
def DEFAULT_TIMEOUT_MS : Nat := 5000

/-- Hard ceiling on `timeoutMs` (25000 ms). -/
def MAX_TIMEOUT_MS : Nat := 25000

/-- Default memory ceiling when `memoryLimitBytes` is absent (10 MiB). -/
def DEFAULT_MEMORY_LIMIT_BYTES : Nat := 10485760

/-- Hard ceiling on `memoryLimitBytes` (50 MiB). -/
def MAX_MEMORY_LIMIT_BYTES : Nat := 52428800

/-- The request payload the SDK sends to the Lambda (TypeScript `ExecuteRequest`). -/
structure ExecuteRequest where
  code : String
  timeoutMs : Option Nat
  memoryLimitBytes : Option Nat
  allowedDomains : Option (List String)
  options : Option JValue

/-- The effective limits one run executes under. -/
structure SandboxConfig where
  timeoutMs : Nat
  memoryLimitBytes : Nat

/-- Modelled from the spec: before a run starts, `timeoutMs` and `memoryLimitBytes`
are defaulted (5000 ms / 10 MiB) when absent and clamped to their hard ceilings
(25000 ms / 50 MiB) — the Rust validation code is not in the snapshot. -/
def validateRequest (req : ExecuteRequest) : SandboxConfig :=
  { timeoutMs := min (req.timeoutMs.getD DEFAULT_TIMEOUT_MS) MAX_TIMEOUT_MS
    memoryLimitBytes := min (req.memoryLimitBytes.getD DEFAULT_MEMORY_LIMIT_BYTES) MAX_MEMORY_LIMIT_BYTES }

/-! ## Resource Governor (spec §4.2) and raw run outcomes -/

/-- How a run ends when it settles on its own: a returned value or a thrown error. -/
inductive SettledOutcome where
  | returned (v : JValue) : SettledOutcome
  | threw (msg : String) : SettledOutcome

/-- The observable behaviour of one interpreter run: the instant (ms from start) at
which it settles — `none` for code that never yields, such as an unbounded tight
loop — and what it settles to. -/
structure RunBehavior where
  settleTime : Option Nat
  outcome : SettledOutcome

/-- The raw outcome handed to the Result Protocol: the run settled by itself, or the
Resource Governor forcibly terminated it. -/
inductive RawOutcome where
  | settled (o : SettledOutcome) : RawOutcome
  | terminated (err : String) : RawOutcome

/-- The Resource Governor's timeout message (fixed string, also documented by the
SDK README: `result.error // 'Execution timeout exceeded'`). -/
def TIMEOUT_ERROR : String := "Execution timeout exceeded"

/-- Modelled from the spec: the Resource Governor's countdown (spec §4.2; the Rust
governor is not in the snapshot).  If the run has not settled strictly before the
`timeoutMs` deadline it is forcibly terminated with `TIMEOUT_ERROR`; otherwise the
run's own settled outcome passes through. -/
def governRun (timeoutMs : Nat) (run : RunBehavior) : RawOutcome :=
  match run.settleTime with
  | none => .terminated TIMEOUT_ERROR
  | some t => if t < timeoutMs then .settled run.outcome else .terminated TIMEOUT_ERROR

/-! ## Result Protocol (spec §4.5) -/

/-- The Execution Outcome shape returned to the caller (TypeScript `ExecuteResponse`:
`success`, `result`, `error`, `skip_reason`, `error_reason`, `executionTimeMs`,
`consoleOutput`). -/
structure ExecuteResponse where
  success : Bool
  result : Option JValue
  error : Option String
  skip_reason : Option String
  error_reason : Option String
  executionTimeMs : Nat
  consoleOutput : List String

/-- Modelled from the spec: the Result Protocol (spec §4.5; the Rust implementation
is not in the snapshot).  A thrown failure reports `success := false` with `error`
and `error_reason` carrying the description; a governor-forced termination reports
`success := false` with the governor's message; a normal return reports
`success := true` with the full value in `result` and the cooperative
`skip_reason`/`error_reason` keys read off the returned value. -/
def classify (raw : RawOutcome) (elapsedMs : Nat) (console : List String) : ExecuteResponse :=
  match raw with
  | .terminated err =>
    { success := false, result := none, error := some err, skip_reason := none,
      error_reason := none, executionTimeMs := elapsedMs, consoleOutput := console }
  | .settled (.threw msg) =>
    { success := false, result := none, error := some msg, skip_reason := none,
      error_reason := some msg, executionTimeMs := elapsedMs, consoleOutput := console }
  | .settled (.returned v) =>
    { success := true, result := some v, error := none,
      skip_reason := fieldString v "skip_reason",
      error_reason := fieldString v "error_reason",
      executionTimeMs := elapsedMs, consoleOutput := console }

/-- The Result Protocol as the spec presents it: a state machine relating a raw
outcome (plus elapsed time and captured console lines) to the Execution Outcome it
classifies to, one terminal transition per spec §4.5 branch. -/
inductive ResultStep : RawOutcome → Nat → List String → ExecuteResponse → Prop where
  | terminated (err : String) (t : Nat) (c : List String) :
      ResultStep (.terminated err) t c
        { success := false, result := none, error := some err, skip_reason := none,
          error_reason := none, executionTimeMs := t, consoleOutput := c }
  | threw (msg : String) (t : Nat) (c : List String) :
      ResultStep (.settled (.threw msg)) t c
        { success := false, result := none, error := some msg, skip_reason := none,
          error_reason := some msg, executionTimeMs := t, consoleOutput := c }
  | returned (v : JValue) (t : Nat) (c : List String) :
      ResultStep (.settled (.returned v)) t c
        { success := true, result := some v, error := none,
          skip_reason := fieldString v "skip_reason",
          error_reason := fieldString v "error_reason",
          executionTimeMs := t, consoleOutput := c }

/-! ## SDK entry point (packages/sdk/src, embedded from the TypeScript source) -/

/-- The options accepted by the SDK's `runUntrustedCode` (TypeScript
`RunUntrustedCodeOptions`). -/
structure RunOptions where
  code : String
  functionName : Option String
  region : Option String
  timeoutMs : Option Nat
  memoryLimitBytes : Option Nat
  allowedDomains : Option (List String)
  options : Option JValue

/-- The error thrown by `runUntrustedCode` when no function name can be resolved
(verbatim from the TypeScript source). -/
def FUNCTION_NAME_ERROR : String :=
  "Function name must be provided via options.functionName or SANDBOX_FUNCTION_NAME environment variable"

/-- JavaScript truthiness of an optional string: `undefined` and `""` are falsy
(the SDK resolves the name with `options.functionName || process.env.SANDBOX_FUNCTION_NAME`). -/
def truthyStr : Option String → Bool
  | none => false
  | some s => !(s == "")

/-- The function name `runUntrustedCode` resolves: `options.functionName`, falling
back on the `SANDBOX_FUNCTION_NAME` environment variable, under JS truthiness. -/
def resolveFunctionName (opts : RunOptions) (envFunctionName : Option String) : Option String :=
  if truthyStr opts.functionName then opts.functionName
  else if truthyStr envFunctionName then envFunctionName
  else none

/-- The pure prefix of the SDK's `runUntrustedCode` up to the Lambda invocation:
resolve the function name (throwing `FUNCTION_NAME_ERROR` when neither source
supplies one) and build the request payload for the `InvokeCommand`.  `Except.error`
models the throw: no payload is built in that case. -/
def prepareInvocation (opts : RunOptions) (envFunctionName : Option String) :
    Except String (String × ExecuteRequest) :=
  match resolveFunctionName opts envFunctionName with
  | none => .error FUNCTION_NAME_ERROR
  | some fn =>
    .ok (fn,
      { code := opts.code
        timeoutMs := opts.timeoutMs
        memoryLimitBytes := opts.memoryLimitBytes
        allowedDomains := opts.allowedDomains
        options := opts.options })

/-- The SDK's `getStructuredError` result type (TypeScript `StructuredError`). -/
structure StructuredError where
  errorOutput : Option String
  skipReason : Option String

/-- Embedded from the TypeScript source: `getStructuredError` projects the
`error_reason` and `skip_reason` fields of an `ExecuteResponse`. -/
def getStructuredError (response : ExecuteResponse) : StructuredError :=
  { errorOutput := response.error_reason
    skipReason := response.skip_reason }

/-! ## Sample requests used by concrete instantiations -/

/-- A well-formed GET request to a public address, parameterised by host. -/
def sampleReq (host : String) : FetchRequest :=
  { scheme := "https", method := "GET", host := host, resolvedAddr := .v4 93 184 216 34 }

/-- A request that leaves both resource limits absent. -/
def unboundedRequest : ExecuteRequest :=
  { code := "2 + 2", timeoutMs := none, memoryLimitBytes := none,
    allowedDomains := none, options := none }

/-- SDK options giving no function name. -/
def namelessOptions : RunOptions :=
  { code := "2 + 2", functionName := none, region := none, timeoutMs := none,
    memoryLimitBytes := none, allowedDomains := none, options := none }

/-! ## Supporting lemmas -/

/-- The executable Result Protocol realises the spec's state machine: `classify`
always takes exactly the `ResultStep` transition for its raw outcome. -/
theorem classify_resultStep (raw : RawOutcome) (elapsedMs : Nat) (console : List String) :
    ResultStep raw elapsedMs console (classify raw elapsedMs console) := by
  match raw with
  | .terminated err => exact ResultStep.terminated err elapsedMs console
  | .settled (.threw msg) => exact ResultStep.threw msg elapsedMs console
  | .settled (.returned v) => exact ResultStep.returned v elapsedMs console

/-! ## Claims -/

/-- C1: For every run whose request has an empty `allowedDomains` set, every network
call attempted by the sandboxed code returns a result with `ok = false` and the
policy-rejection error for an empty allowlist; no network call ever succeeds during
such a run. -/
theorem empty_allowlist_never_succeeds (parse : String → Option JValue)
    (allowedDomains : List String) (calls : List (FetchRequest × NetOutcome))
    (hempty : allowedDomains.isEmpty = true) :
    ∀ r ∈ runFetches parse allowedDomains calls,
      r.ok = false ∧ r.error = some EMPTY_ALLOWLIST_ERROR := by
  intro r hr
  rw [runFetches, List.mem_map] at hr
  obtain ⟨⟨rq, nt⟩, -, rfl⟩ := hr
  simp [fetchCapability, mediate, hempty]

/-- Witness for C1: with `allowedDomains = []`, a well-formed GET to a public host
that would answer 200 still comes back `ok = false` with the policy-rejection error. -/
theorem empty_allowlist_never_succeeds_witness :
    (fetchCapability (fun _ => none) [] (sampleReq "example.com") (.response 200 "ok")).ok = false ∧
    (fetchCapability (fun _ => none) [] (sampleReq "example.com") (.response 200 "ok")).error =
      some EMPTY_ALLOWLIST_ERROR := by
  have h := empty_allowlist_never_succeeds (fun _ => none) []
    [(sampleReq "example.com", .response 200 "ok")] rfl
  exact h _ (by simp [runFetches])

/-- C2: For every outbound call whose target host is the literal `localhost` or
resolves into a private/loopback/link-local range (`isBlockedHost`), the Network
Mediator rejects the call regardless of the contents of `allowedDomains`: the
blocking check runs before allowlist matching in `mediate`. -/
theorem blocked_host_always_rejected (allowedDomains : List String) (req : FetchRequest)
    (hblocked : isBlockedHost req.host req.resolvedAddr = true) :
    ∃ reason, mediate allowedDomains req = .reject reason := by
  unfold mediate
  by_cases h1 : allowedDomains.isEmpty = true
  · exact ⟨EMPTY_ALLOWLIST_ERROR, by simp [h1]⟩
  · by_cases h2 : (!(req.scheme == "http" || req.scheme == "https")) = true
    · exact ⟨SCHEME_ERROR, by simp [h1, h2]⟩
    · by_cases h3 : (req.method != "GET") = true
      · exact ⟨METHOD_ERROR, by simp [h1, h2, h3]⟩
      · exact ⟨PRIVATE_ADDR_ERROR, by simp [h1, h2, h3, hblocked]⟩

/-- Witness for C2: a call to the literal `localhost` (resolving to `127.0.0.1`) is
rejected even though `allowedDomains` contains the literal entry `localhost`. -/
theorem blocked_host_always_rejected_witness :
    ∃ reason, mediate ["localhost"]
      { scheme := "https", method := "GET", host := "localhost", resolvedAddr := .v4 127 0 0 1 } =
      .reject reason :=
  blocked_host_always_rejected ["localhost"] _ (by decide)

/-- C3: For every outbound call that passes the empty-allowlist, scheme/method and
private-range checks, the Network Mediator accepts the target hostname exactly when
it is an exact match of an entry in `allowedDomains` or a dot-boundary suffix match
(proper subdomain) of an entry; the witness instantiates the four examples
(`api.example.com` / `example.com` accepted, `notexample.com` /
`example.com.evil.com` rejected for `allowedDomains = ["example.com"]`). -/
theorem allowlist_match_decides_accept (allowedDomains : List String) (req : FetchRequest)
    (h1 : allowedDomains.isEmpty = false)
    (h2 : (req.scheme == "http" || req.scheme == "https") = true)
    (h3 : req.method = "GET")
    (h4 : isBlockedHost req.host req.resolvedAddr = false) :
    mediate allowedDomains req = .accept ↔
      ∃ entry ∈ allowedDomains, req.host = entry ∨ strEndsWith req.host ("." ++ entry) = true := by
  have hmed : mediate allowedDomains req =
      (if allowedDomains.any (domainMatches req.host) then FetchDecision.accept
       else .reject ("Domain not allowed: " ++ req.host)) := by
    rw [mediate, if_neg (by simp [h1]), if_neg (by simp [h2]), if_neg (by simp [h3]),
      if_neg (by simp [h4])]
  rw [hmed]
  constructor
  · intro hacc
    have hany : allowedDomains.any (domainMatches req.host) = true := by
      by_contra hn
      rw [if_neg hn] at hacc
      exact FetchDecision.noConfusion hacc
    rw [List.any_eq_true] at hany
    obtain ⟨entry, hmem, hmatch⟩ := hany
    rw [domainMatches, Bool.or_eq_true, beq_iff_eq] at hmatch
    exact ⟨entry, hmem, hmatch⟩
  · rintro ⟨entry, hmem, hmatch⟩
    have hany : allowedDomains.any (domainMatches req.host) = true :=
      List.any_eq_true.mpr
        ⟨entry, hmem, by rw [domainMatches, Bool.or_eq_true, beq_iff_eq]; exact hmatch⟩
    rw [if_pos hany]

/-- Witness for C3: with `allowedDomains = ["example.com"]`, `api.example.com` and
`example.com` are accepted while `notexample.com` and `example.com.evil.com` are
rejected. -/
theorem allowlist_match_decides_accept_witness :
    mediate ["example.com"] (sampleReq "api.example.com") = .accept ∧
    mediate ["example.com"] (sampleReq "example.com") = .accept ∧
    mediate ["example.com"] (sampleReq "notexample.com") ≠ .accept ∧
    mediate ["example.com"] (sampleReq "example.com.evil.com") ≠ .accept := by
  refine ⟨?_, ?_, ?_, ?_⟩
  · exact (allowlist_match_decides_accept ["example.com"] (sampleReq "api.example.com")
      rfl rfl rfl (by decide)).mpr ⟨"example.com", by simp, Or.inr (by decide)⟩
  · exact (allowlist_match_decides_accept ["example.com"] (sampleReq "example.com")
      rfl rfl rfl (by decide)).mpr ⟨"example.com", by simp, Or.inl rfl⟩
  · intro hacc
    obtain ⟨entry, hmem, hmatch⟩ :=
      (allowlist_match_decides_accept ["example.com"] (sampleReq "notexample.com")
        rfl rfl rfl (by decide)).mp hacc
    simp only [List.mem_singleton] at hmem
    subst hmem
    exact absurd hmatch (by decide)
  · intro hacc
    obtain ⟨entry, hmem, hmatch⟩ :=
      (allowlist_match_decides_accept ["example.com"] (sampleReq "example.com.evil.com")
        rfl rfl rfl (by decide)).mp hacc
    simp only [List.mem_singleton] at hmem
    subst hmem
    exact absurd hmatch (by decide)

/-- C4: Every outbound call through the fetch capability returns (rather than
raising — `fetchCapability` is total) a value of the uniform shape
`{ ok, status, text, json, error }`: `ok` is true exactly when the status is in
200–299; a policy rejection, a network failure and a timeout each yield `ok = false`
with `error` populated; a received response carries the body as `text` and its
parse (or null) as `json`. -/
theorem fetch_uniform_response_shape (parse : String → Option JValue)
    (allowedDomains : List String) (req : FetchRequest) (net : NetOutcome) :
    ((fetchCapability parse allowedDomains req net).ok = true ↔
      200 ≤ (fetchCapability parse allowedDomains req net).status ∧
      (fetchCapability parse allowedDomains req net).status ≤ 299) ∧
    (∀ reason, mediate allowedDomains req = .reject reason →
      (fetchCapability parse allowedDomains req net).ok = false ∧
      (fetchCapability parse allowedDomains req net).error = some reason) ∧
    (mediate allowedDomains req = .accept →
      (∀ status body, net = .response status body →
        (fetchCapability parse allowedDomains req net).status = status ∧
        (fetchCapability parse allowedDomains req net).text = body ∧
        (fetchCapability parse allowedDomains req net).json = parse body ∧
        (fetchCapability parse allowedDomains req net).error = none) ∧
      (∀ msg, net = .netFailure msg →
        (fetchCapability parse allowedDomains req net).ok = false ∧
        (fetchCapability parse allowedDomains req net).error = some msg) ∧
      (net = .timeout →
        (fetchCapability parse allowedDomains req net).ok = false ∧
        (fetchCapability parse allowedDomains req net).error = some FETCH_TIMEOUT_ERROR)) := by
  cases hdec : mediate allowedDomains req with
  | reject reason =>
    cases net <;>
      simp_all [fetchCapability]
  | accept =>
    cases net with
    | response status body =>
      refine ⟨?_, ?_, ?_⟩
      · simp [fetchCapability, hdec]
      · intro r hr; exact FetchDecision.noConfusion hr
      · intro _
        refine ⟨?_, ?_, ?_⟩
        · intro s b hsb
          cases hsb
          simp [fetchCapability, hdec]
        · intro msg hmsg; exact NetOutcome.noConfusion hmsg
        · intro ht; exact NetOutcome.noConfusion ht
    | netFailure msg =>
      refine ⟨by simp [fetchCapability, hdec], ?_, ?_⟩
      · intro r hr; exact FetchDecision.noConfusion hr
      · intro _
        refine ⟨fun s b hsb => NetOutcome.noConfusion hsb, ?_, fun ht => NetOutcome.noConfusion ht⟩
        intro m hm
        cases hm
        simp [fetchCapability, hdec]
    | timeout =>
      refine ⟨by simp [fetchCapability, hdec], ?_, ?_⟩
      · intro r hr; exact FetchDecision.noConfusion hr
      · intro _
        exact ⟨fun s b hsb => NetOutcome.noConfusion hsb,
          fun m hm => NetOutcome.noConfusion hm,
          fun _ => by simp [fetchCapability, hdec]⟩

/-- Witness for C4: an accepted call answered with HTTP 200 comes back `ok = true`
with no error, and status 200 lies in 200–299. -/
theorem fetch_uniform_response_shape_witness :
    (fetchCapability (fun _ => some .null) ["example.com"] (sampleReq "api.example.com")
      (.response 200 "null")).ok = true := by
  have h := fetch_uniform_response_shape (fun _ => some .null) ["example.com"]
    (sampleReq "api.example.com") (.response 200 "null")
  exact h.1.mpr ⟨by decide, by decide⟩

/-- C5: For every Invocation Request, before the run starts `timeoutMs` is defaulted
to 5000 when absent and clamped so it never exceeds 25000, and `memoryLimitBytes` is
defaulted to 10485760 when absent and clamped so it never exceeds 52428800; no run
executes with an unbounded time or memory limit. -/
theorem limits_defaulted_and_clamped (req : ExecuteRequest) :
    (validateRequest req).timeoutMs ≤ 25000 ∧
    (validateRequest req).memoryLimitBytes ≤ 52428800 ∧
    (req.timeoutMs = none → (validateRequest req).timeoutMs = 5000) ∧
    (req.memoryLimitBytes = none → (validateRequest req).memoryLimitBytes = 10485760) := by
  refine ⟨Nat.min_le_right _ _, Nat.min_le_right _ _, ?_, ?_⟩ <;>
    · intro h
      simp [validateRequest, h, DEFAULT_TIMEOUT_MS, MAX_TIMEOUT_MS,
        DEFAULT_MEMORY_LIMIT_BYTES, MAX_MEMORY_LIMIT_BYTES]

/-- Witness for C5: a request leaving both limits absent runs at 5000 ms and
10485760 bytes. -/
theorem limits_defaulted_and_clamped_witness :
    (validateRequest unboundedRequest).timeoutMs = 5000 ∧
    (validateRequest unboundedRequest).memoryLimitBytes = 10485760 := by
  have h := limits_defaulted_and_clamped unboundedRequest
  exact ⟨h.2.2.1 rfl, h.2.2.2 rfl⟩

/-- C6: For every run that has not settled when the `timeoutMs` countdown expires —
including runs that never settle, such as an unbounded tight loop — the Resource
Governor forcibly terminates the interpreter, and the Execution Outcome has
`success = false` and `error = "Execution timeout exceeded"`. -/
theorem timeout_forces_termination (timeoutMs : Nat) (run : RunBehavior)
    (elapsedMs : Nat) (console : List String)
    (hlate : ∀ t, run.settleTime = some t → timeoutMs ≤ t) :
    governRun timeoutMs run = .terminated TIMEOUT_ERROR ∧
    (classify (governRun timeoutMs run) elapsedMs console).success = false ∧
    (classify (governRun timeoutMs run) elapsedMs console).error = some TIMEOUT_ERROR := by
  have hg : governRun timeoutMs run = .terminated TIMEOUT_ERROR := by
    cases hs : run.settleTime with
    | none => simp [governRun, hs]
    | some t => simp [governRun, hs, Nat.not_lt.mpr (hlate t hs)]
  exact ⟨hg, by rw [hg]; rfl, by rw [hg]; rfl⟩

/-- Witness for C6: a tight loop that never settles, run with `timeoutMs = 1000`,
is terminated with the timeout error. -/
theorem timeout_forces_termination_witness :
    governRun 1000 { settleTime := none, outcome := .returned .null } =
      .terminated TIMEOUT_ERROR ∧
    (classify (governRun 1000 { settleTime := none, outcome := .returned .null })
      1000 []).success = false :=
  have h := timeout_forces_termination 1000
    { settleTime := none, outcome := .returned .null } 1000 []
    (fun _ ht => Option.noConfusion ht)
  ⟨h.1, h.2.1⟩

/-- C7: For every run that returns normally with a value containing a `skip_reason`
field, the Execution Outcome has `success = true` and `skip_reason` set to that
field's value, with the full returned value in `result`; the witness instantiates
the spec scenario `return { skip_reason: 'user_cancelled' }`. -/
theorem skip_reason_return_classified (v : JValue) (reason : String)
    (elapsedMs : Nat) (console : List String)
    (hskip : fieldString v "skip_reason" = some reason) :
    (classify (.settled (.returned v)) elapsedMs console).success = true ∧
    (classify (.settled (.returned v)) elapsedMs console).skip_reason = some reason ∧
    (classify (.settled (.returned v)) elapsedMs console).result = some v ∧
    (classify (.settled (.returned v)) elapsedMs console).error = none := by
  refine ⟨rfl, ?_, rfl, rfl⟩
  simpa [classify] using hskip

/-- Witness for C7: `return { skip_reason: 'user_cancelled' }` yields
`success = true`, `skip_reason = "user_cancelled"`, and the returned object intact
in `result`. -/
theorem skip_reason_return_classified_witness :
    (classify (.settled (.returned (.obj [("skip_reason", .str "user_cancelled")])))
      1 []).success = true ∧
    (classify (.settled (.returned (.obj [("skip_reason", .str "user_cancelled")])))
      1 []).skip_reason = some "user_cancelled" ∧
    (classify (.settled (.returned (.obj [("skip_reason", .str "user_cancelled")])))
      1 []).result = some (.obj [("skip_reason", .str "user_cancelled")]) := by
  have h := skip_reason_return_classified (.obj [("skip_reason", .str "user_cancelled")])
    "user_cancelled" 1 [] (by decide)
  exact ⟨h.1, h.2.1, h.2.2.1⟩

/-- C8: For every run that returns normally with a value containing an
`error_reason` field, the Execution Outcome has `success = true` at the sandbox
level, `error_reason` set to that field's value, and `result` still holds the full
returned value, so no other field of the returned payload is lost. -/
theorem error_reason_return_classified (v : JValue) (reason : String)
    (elapsedMs : Nat) (console : List String)
    (herr : fieldString v "error_reason" = some reason) :
    (classify (.settled (.returned v)) elapsedMs console).success = true ∧
    (classify (.settled (.returned v)) elapsedMs console).error_reason = some reason ∧
    (classify (.settled (.returned v)) elapsedMs console).result = some v ∧
    (getStructuredError (classify (.settled (.returned v)) elapsedMs console)).errorOutput =
      some reason := by
  have he : (classify (.settled (.returned v)) elapsedMs console).error_reason = some reason := by
    simpa [classify] using herr
  exact ⟨rfl, he, rfl, by rw [getStructuredError]; exact he⟩

/-- Witness for C8: `return { error_reason: 'validation_failed', message: '...' }`
yields `success = true`, `error_reason = "validation_failed"`, and the full object —
including the extra `message` field — in `result`. -/
theorem error_reason_return_classified_witness :
    (classify (.settled (.returned (.obj [("error_reason", .str "validation_failed"),
      ("message", .str "Email is required")]))) 1 []).success = true ∧
    (classify (.settled (.returned (.obj [("error_reason", .str "validation_failed"),
      ("message", .str "Email is required")]))) 1 []).error_reason =
      some "validation_failed" ∧
    (classify (.settled (.returned (.obj [("error_reason", .str "validation_failed"),
      ("message", .str "Email is required")]))) 1 []).result =
      some (.obj [("error_reason", .str "validation_failed"),
        ("message", .str "Email is required")]) := by
  have h := error_reason_return_classified
    (.obj [("error_reason", .str "validation_failed"), ("message", .str "Email is required")])
    "validation_failed" 1 [] (by decide)
  exact ⟨h.1, h.2.1, h.2.2.1⟩

/-- C9: The Result Protocol mapping is deterministic: the `ResultStep` state machine
relates each raw run outcome (with its elapsed time and console lines) to at most
one Execution Outcome, so two classifications of the same raw outcome agree. -/
theorem result_protocol_deterministic (raw : RawOutcome) (elapsedMs : Nat)
    (console : List String) (r₁ r₂ : ExecuteResponse)
    (hstep₁ : ResultStep raw elapsedMs console r₁)
    (hstep₂ : ResultStep raw elapsedMs console r₂) :
    r₁ = r₂ := by
  cases hstep₁ <;> cases hstep₂ <;> rfl

/-- Witness for C9: two classifications of the same terminated outcome coincide. -/
theorem result_protocol_deterministic_witness :
    classify (.terminated TIMEOUT_ERROR) 5 [] = classify (.terminated TIMEOUT_ERROR) 5 [] :=
  result_protocol_deterministic (.terminated TIMEOUT_ERROR) 5 [] _ _
    (classify_resultStep (.terminated TIMEOUT_ERROR) 5 [])
    (classify_resultStep (.terminated TIMEOUT_ERROR) 5 [])

/-- C10: For every call to the SDK entry point `runUntrustedCode` where
`options.functionName` is absent and the `SANDBOX_FUNCTION_NAME` environment
variable is unset, the function throws an error mentioning both ways to supply the
name, and no Lambda invocation is attempted: no request payload is built. -/
theorem missing_function_name_throws (opts : RunOptions)
    (hname : opts.functionName = none) :
    prepareInvocation opts none = .error FUNCTION_NAME_ERROR ∧
    (∀ fn req, prepareInvocation opts none ≠ .ok (fn, req)) ∧
    (∃ s₁ s₂, FUNCTION_NAME_ERROR = s₁ ++ "options.functionName" ++ s₂) ∧
    (∃ s₁ s₂, FUNCTION_NAME_ERROR = s₁ ++ "SANDBOX_FUNCTION_NAME" ++ s₂) := by
  have hp : prepareInvocation opts none = .error FUNCTION_NAME_ERROR := by
    rw [prepareInvocation, resolveFunctionName, hname]
    rfl
  refine ⟨hp, ?_, ?_, ?_⟩
  · intro fn req hok
    rw [hp] at hok
    exact Except.noConfusion hok
  · exact ⟨"Function name must be provided via ",
      " or SANDBOX_FUNCTION_NAME environment variable", rfl⟩
  · exact ⟨"Function name must be provided via options.functionName or ",
      " environment variable", rfl⟩

/-- Witness for C10: a minimal options object with no function name and an unset
environment variable makes `runUntrustedCode` throw before any payload is built. -/
theorem missing_function_name_throws_witness :
    prepareInvocation namelessOptions none = .error FUNCTION_NAME_ERROR :=
  (missing_function_name_throws namelessOptions rfl).1

end Sandbox
